import Mathlib

/-!
Verification of the RL training engine of the fruit-merge game.

The definitions below are a shallow embedding of the step-based variant of
`src/game/rl/game-api.js` (the `GameAPI` class with `DROP_COOLDOWN_STEPS`),
of `src/game/rl/game-environment.js` (`GameEnvironment`), and of the
optimized variant of the DQN agent (the `DQNAgent` class with double DQN,
prioritized replay and learning-rate decay) bundled in the same sources.

Numbers that are JavaScript floats in the source are modelled as exact
rationals (`ℚ`); machine state held in instance fields becomes explicit
record state; promise resolution becomes an event log (`resolvedActions`,
`resetResolvedCount`).  Driver mutations (`moveFruit`, `dropFruit`,
`handleRestart`) and presentation control (rendering, DOM, the Matter.js
runner) act on the external simulation driver and have no observable
effect on the scheduler state modelled here; they are noted in comments
where the source performs them.
-/

namespace FruitMergeRL

/-! ### The scheduler state (`GameAPI`, step-based variant)

`GameAPI` holds `gameInstance` (the driver), mode flags, the action queue,
the in-flight bookkeeping and the step-cooldown counters.  The model keeps
the driver as `Option GameInst` where `GameInst` carries the one driver
field the modelled operations read (`isGameOver`); resolution of an action
promise is recorded by appending the action's id to `resolvedActions`, and
resolution of a reset promise by incrementing `resetResolvedCount`. -/

/-- The one field of the live game instance that the modelled scheduler
operations read (`this.gameInstance.isGameOver`). -/
structure GameInst where
  isGameOver : Bool
deriving Repr, DecidableEq

/-- An entry of `this.actionQueue`: the source pushes `{ position, resolve }`;
the promise's `resolve` function is modelled by the numeric id under which
the resolution is logged. -/
structure ActionRequest where
  id : Nat
  position : ℚ
deriving Repr, DecidableEq

/-- `this.DROP_COOLDOWN_STEPS = 25` (game-api.js, step-based variant). -/
def DROP_COOLDOWN_STEPS : Nat := 25

/-- `this.RESET_COOLDOWN_STEPS = 10` (game-api.js, step-based variant). -/
def RESET_COOLDOWN_STEPS : Nat := 10

/-- The mutable instance state of `GameAPI` (step-based variant), with the
promise plumbing made explicit: `actionResolveCallback` holds the id of the
in-flight action (if any), `resolvedActions` logs the order in which action
promises were resolved, `resetResolvedCount` counts resolved reset promises.
`dropTimeoutPending`/`resetTimeoutPending` stand for the `setTimeout`
handles armed on the non-fast-forward paths. -/
structure ApiState where
  gameInstance : Option GameInst
  fastForwardMode : Bool
  actionQueue : List ActionRequest
  isExecutingAction : Bool
  actionResolveCallback : Option Nat
  resetResolveCallback : Bool
  dropCooldownCounter : Nat
  resetCooldownCounter : Nat
  simulationStep : Nat
  lastProcessedStep : Int
  dropTimeoutPending : Bool
  resetTimeoutPending : Bool
  resolvedActions : List Nat
  resetResolvedCount : Nat
deriving Repr, DecidableEq

/-- The `GameAPI` constructor: no game instance, interactive mode, empty
queue, all counters zero, `simulationStep = 0`, `lastProcessedStep = -1`. -/
def apiNew : ApiState :=
  { gameInstance := none
    fastForwardMode := false
    actionQueue := []
    isExecutingAction := false
    actionResolveCallback := none
    resetResolveCallback := false
    dropCooldownCounter := 0
    resetCooldownCounter := 0
    simulationStep := 0
    lastProcessedStep := -1
    dropTimeoutPending := false
    resetTimeoutPending := false
    resolvedActions := []
    resetResolvedCount := 0 }

/-- `init(gameInstance)`: binds the driver.  (The source also registers the
`afterUpdate` hook, which is the event delivery of `onSimulationStep`, and
restarts the manual loop when fast-forward was already on; both are event
wiring, not state.) -/
def initApi (g : GameInst) (s : ApiState) : ApiState :=
  { s with gameInstance := some g }

/-- `processActionQueue()`: returns at once when an action is already
executing or the queue is empty; otherwise shifts the front request, marks
it in flight, stores its resolve callback, moves and drops the fruit on the
driver (external mutation), and arms the drop cooldown —
`DROP_COOLDOWN_STEPS` in fast-forward mode, an 800 ms timeout otherwise. -/
def processActionQueue (s : ApiState) : ApiState :=
  if s.isExecutingAction = true ∨ s.actionQueue.length = 0 then s
  else
    match s.actionQueue with
    | [] => s
    | a :: rest =>
      let s1 := { s with
        isExecutingAction := true
        actionQueue := rest
        actionResolveCallback := some a.id }
      -- `game.moveFruit(targetX, true)` / `game.dropFruit()` mutate the driver
      if s1.fastForwardMode then
        { s1 with dropCooldownCounter := DROP_COOLDOWN_STEPS }
      else
        { s1 with dropTimeoutPending := true }

/-- The body of the stored `actionResolveCallback`: computes the result from
the driver (external reads, modelled separately by `calculateReward`'s
input), clears the callback and the in-flight flag, resolves the promise
(logged), then processes the next queued action. -/
def runActionResolveCallback (s : ApiState) : ApiState :=
  match s.actionResolveCallback with
  | none => s
  | some a =>
    processActionQueue
      { s with
        actionResolveCallback := none
        isExecutingAction := false
        resolvedActions := s.resolvedActions ++ [a] }

/-- `resolveCurrentAction()`: runs the stored callback if one is present. -/
def resolveCurrentAction (s : ApiState) : ApiState :=
  runActionResolveCallback s

/-- The drop-cooldown block of `onSimulationStep()`: `if
(this.dropCooldownCounter > 0) { this.dropCooldownCounter--; if
(this.dropCooldownCounter === 0 && this.actionResolveCallback)
this.resolveCurrentAction(); }`. -/
def stepDropPhase (s : ApiState) : ApiState :=
  if 0 < s.dropCooldownCounter then
    let s' := { s with dropCooldownCounter := s.dropCooldownCounter - 1 }
    if s'.dropCooldownCounter == 0 && s'.actionResolveCallback.isSome then
      resolveCurrentAction s'
    else s'
  else s

/-- The reset-cooldown block of `onSimulationStep()`: `if
(this.resetCooldownCounter > 0) { this.resetCooldownCounter--; if
(this.resetCooldownCounter === 0 && this.resetResolveCallback) {
this.resetResolveCallback(); this.resetResolveCallback = null; } }`. -/
def stepResetPhase (s : ApiState) : ApiState :=
  if 0 < s.resetCooldownCounter then
    let s' := { s with resetCooldownCounter := s.resetCooldownCounter - 1 }
    if s'.resetCooldownCounter == 0 && s'.resetResolveCallback then
      { s' with resetResolveCallback := false, resetResolvedCount := s'.resetResolvedCount + 1 }
    else s'
  else s

/-- The head of `onSimulationStep()`: `this.simulationStep++` followed by
`this.lastProcessedStep = this.simulationStep` (the dedup guard not having
fired). -/
def bumpStep (s : ApiState) : ApiState :=
  { s with simulationStep := s.simulationStep + 1,
           lastProcessedStep := ((s.simulationStep + 1 : Nat) : Int) }

/-- `onSimulationStep()`: increments `simulationStep` first, returns when it
equals `lastProcessedStep`, records the step, then runs the drop-cooldown
block followed by the reset-cooldown block. -/
def onSimulationStep (s : ApiState) : ApiState :=
  let s1 := { s with simulationStep := s.simulationStep + 1 }
  if (s1.simulationStep : Int) = s1.lastProcessedStep then s1
  else
    stepResetPhase (stepDropPhase { s1 with lastProcessedStep := (s1.simulationStep : Int) })

/-- `k` step notifications in sequence (driver hook or manual loop, the
source calls the same method from both). -/
def runSteps (k : Nat) (s : ApiState) : ApiState :=
  onSimulationStep^[k] s

/-- The state change of `executeAction(position)` past its guard: push the
request and process the queue. -/
def enqueue (id : Nat) (position : ℚ) (s : ApiState) : ApiState :=
  processActionQueue { s with actionQueue := s.actionQueue ++ [⟨id, position⟩] }

/-- The errors the scheduler can raise: `throw new Error('GameAPI not
initialized')`. -/
inductive ApiError where
  | notInitialized
deriving Repr, DecidableEq

/-- `executeAction(position)`: fails when no game instance is bound,
otherwise enqueues the request (and processes the queue). -/
def executeActionOp (id : Nat) (position : ℚ) (s : ApiState) :
    Except ApiError ApiState :=
  match s.gameInstance with
  | none => .error .notInitialized
  | some _ => .ok (enqueue id position s)

/-- The state change of `resetGame()` past its guard: clears the queue, the
in-flight flag and both resolve callbacks, restarts the driver (external),
then arms the reset cooldown (`RESET_COOLDOWN_STEPS` in fast-forward mode, a
200 ms timeout otherwise) for its own promise. -/
def resetGameRun (s : ApiState) : ApiState :=
  let s1 := { s with
    actionQueue := []
    isExecutingAction := false
    actionResolveCallback := none
    resetResolveCallback := false }
  -- `game.handleRestart()` restarts the driver (external mutation)
  if s1.fastForwardMode then
    { s1 with resetResolveCallback := true, resetCooldownCounter := RESET_COOLDOWN_STEPS }
  else
    { s1 with resetTimeoutPending := true }

/-- `resetGame()`: fails when no game instance is bound. -/
def resetGameOp (s : ApiState) : Except ApiError ApiState :=
  match s.gameInstance with
  | none => .error .notInitialized
  | some _ => .ok (resetGameRun s)

/-- `isGameOver()`: `this.gameInstance ? (this.gameInstance.isGameOver ||
false) : false` — a plain conditional read, it never throws. -/
def isGameOverOp (s : ApiState) : Except ApiError Bool :=
  .ok (match s.gameInstance with
       | some g => g.isGameOver
       | none => false)

/-- The state change of `setFastForwardMode(enabled)`: the flag is always
recorded; everything past the `if (!this.gameInstance) return` guard
controls rendering, the Matter.js runner and the manual loop (presentation
and event wiring, external to this state). -/
def setFF (enabled : Bool) (s : ApiState) : ApiState :=
  { s with fastForwardMode := enabled }

/-- `setFastForwardMode(enabled)`: sets the flag and early-returns when no
game instance is bound — it never throws. -/
def setFastForwardModeOp (enabled : Bool) (s : ApiState) :
    Except ApiError ApiState :=
  .ok (setFF enabled s)

/-- A live driver with the game not over. -/
def gameInst0 : GameInst := { isGameOver := false }

/-- A bound, fast-forward, idle scheduler: `new GameAPI()`, `init(game)`,
`setFastForwardMode(true)`. -/
def ffIdleState : ApiState :=
  setFF true (initApi gameInst0 apiNew)

/-- One drop enqueued on the idle fast-forward scheduler: the action is in
flight with its cooldown armed to `DROP_COOLDOWN_STEPS`. -/
def c1Start : ApiState := enqueue 0 (1 / 2) ffIdleState

/-- Three drops enqueued in the order 10, 20, 30, the second and third
while the first is still in flight. -/
def c6Start : ApiState :=
  enqueue 30 (3 / 4) (enqueue 20 (1 / 2) (enqueue 10 (1 / 4) ffIdleState))

/-- An action in flight (5 of its 25 cooldown steps elapsed). -/
def c7InFlight : ApiState := runSteps 5 c1Start

/-- `resetGame()` issued while that action is in flight. -/
def c7AfterReset : ApiState := resetGameRun c7InFlight

/-! ### The environment adapter (`GameEnvironment`) and `getGameState()` -/

/-- A body of the physics world labelled `'fruit'`: its `fruitLevel`
property (possibly undefined) and its vertical position. -/
structure Fruit where
  level : Option Nat
  y : ℚ
deriving Repr, DecidableEq

/-- The driver fields `getGameState()` reads from `this.gameInstance`. -/
structure RawGame where
  fruits : List Fruit
  gameWorldHeight : ℚ
  /-- `game.gameOverLineY`; the source reads it as `game.gameOverLineY ||
  (game.gameWorldHeight * 0.18)`, so the value `0` selects the default. -/
  gameOverLineY : ℚ
  score : ℚ
  currentFruitLevel : Nat
  nextFruitLevel : Nat
  lastDropTime : ℚ
  now : ℚ
  boosterUnlocked : Bool
  boosterCooldownCount : Nat
  isWarningActive : Bool
  isGameOver : Bool
deriving Repr, DecidableEq

/-- The structured object `getGameState()` returns. -/
structure GameState where
  score : ℚ
  currentFruitLevel : Nat
  nextFruitLevel : Nat
  fruitCount : Nat
  avgFruitY : ℚ
  maxFruitY : ℚ
  fruitLevelCounts : List Nat
  fillLevel : ℚ
  timeSinceLastDrop : ℚ
  boosterAvailable : Bool
  warningActive : Bool
  gameOver : Bool
deriving Repr, DecidableEq

/-- `getGameState()` (step-based variant; the timeout variant is
identical): counts fruits per level into ten slots, averages and maximizes
their vertical positions (the running maximum starts at `0`), normalizes by
the world height, and clamps only the fill level. -/
def getGameState (g : RawGame) : GameState :=
  let fruitCount := g.fruits.length
  let counts := (List.range 10).map fun i =>
    (g.fruits.filter fun f => f.level = some i).length
  let totalY := (g.fruits.map Fruit.y).sum
  let maxY := (g.fruits.map Fruit.y).foldl max 0
  let avgFruitY := if 0 < fruitCount then totalY / (fruitCount : ℚ) else 0
  let gameOverLineY :=
    if g.gameOverLineY = 0 then g.gameWorldHeight * (18 / 100) else g.gameOverLineY
  let fillDenom := if maxY = 0 then g.gameWorldHeight else maxY
  { score := g.score
    currentFruitLevel := g.currentFruitLevel
    nextFruitLevel := g.nextFruitLevel
    fruitCount := fruitCount
    avgFruitY := avgFruitY / g.gameWorldHeight
    maxFruitY := maxY / g.gameWorldHeight
    fruitLevelCounts := counts
    fillLevel := min 1 (max 0 (1 - gameOverLineY / fillDenom))
    timeSinceLastDrop := g.now - g.lastDropTime
    boosterAvailable := g.boosterUnlocked && decide (g.boosterCooldownCount = 0)
    warningActive := g.isWarningActive
    gameOver := g.isGameOver }

/-- `GameEnvironment.getState()`: the 20-component state vector, in index
order 0–19.  Slots 0, 3 and 17 are clamped with `Math.min(·, 1)`; slots 1,
2, 4, 5 and 6–15 are plain divisions. -/
def envGetState (gs : GameState) : List ℚ :=
  [ min (gs.score / 10000) 1,
    (gs.currentFruitLevel : ℚ) / 9,
    (gs.nextFruitLevel : ℚ) / 9,
    min ((gs.fruitCount : ℚ) / 20) 1,
    gs.avgFruitY,
    gs.maxFruitY ]
  ++ (List.range 10).map (fun i => ((gs.fruitLevelCounts.getD i 0 : Nat) : ℚ) / 10)
  ++ [ gs.fillLevel,
    min (gs.timeSinceLastDrop / 5000) 1,
    if gs.boosterAvailable then 1 else 0,
    if gs.warningActive then 1 else 0 ]

/-- A raw game with eleven level-0 fruits resting mid-container: a state
the game reaches by dropping eleven cherries without merging any. -/
def elevenFruitGame : RawGame :=
  { fruits := List.replicate 11 { level := some 0, y := 500 }
    gameWorldHeight := 1000
    gameOverLineY := 180
    score := 0
    currentFruitLevel := 0
    nextFruitLevel := 0
    lastDropTime := 0
    now := 0
    boosterUnlocked := false
    boosterCooldownCount := 0
    isWarningActive := false
    isGameOver := false }

/-- A game state within all the nominal ranges (levels ≤ 9, per-level
counts ≤ 10, normalized positions and fill level inside [0,1]). -/
def nominalGameState : GameState :=
  { score := 100
    currentFruitLevel := 2
    nextFruitLevel := 3
    fruitCount := 5
    avgFruitY := 1 / 2
    maxFruitY := 3 / 4
    fruitLevelCounts := [2, 2, 1, 0, 0, 0, 0, 0, 0, 0]
    fillLevel := 16 / 25
    timeSinceLastDrop := 100
    boosterAvailable := false
    warningActive := true
    gameOver := false }

/-! ### The reward (`GameEnvironment.calculateReward`) -/

/-- The result object an executed action resolves with. -/
structure ActionResult where
  scoreGained : ℚ
  mergeCount : ℚ
  fillLevel : ℚ
  gameOver : Bool
  maxFruitLevelAchieved : ℚ
  previousMaxFruitLevel : ℚ
deriving Repr, DecidableEq

/-- `calculateReward(result)`: each contribution is added under the guard
the source tests (`scoreGained > 0`, `mergeCount > 0`, `fillLevel > 0.8`,
`gameOver`, `maxFruitLevelAchieved > previousMaxFruitLevel`). -/
def calculateReward (r : ActionResult) : ℚ :=
  0 - 1 / 10
  + (if r.scoreGained > 0 then r.scoreGained / 100 else 0)
  + (if r.mergeCount > 0 then r.mergeCount * 2 else 0)
  - (if r.fillLevel > 4 / 5 then (r.fillLevel - 4 / 5) * 10 else 0)
  - (if r.gameOver then 100 else 0)
  + (if r.maxFruitLevelAchieved > r.previousMaxFruitLevel then
      (r.maxFruitLevelAchieved - r.previousMaxFruitLevel) * 10
    else 0)

/-- The reward formula as the specification states it, for comparison with
`calculateReward`: `-0.1 + scoreDelta/100 + mergeCount*2 -
max(0, fillLevel-0.8)*10 - 100·terminal + 10·max(0, newBest - prevBest)`. -/
def specRewardFormula (r : ActionResult) : ℚ :=
  -(1 / 10) + r.scoreGained / 100 + r.mergeCount * 2
    - max 0 (r.fillLevel - 4 / 5) * 10
    - (if r.gameOver then 100 else 0)
    + 10 * max 0 (r.maxFruitLevelAchieved - r.previousMaxFruitLevel)

/-- The scenario input of the spec: scoreDelta 50, one merge, fill level
0.5, non-terminal, best level unchanged. -/
def rewardScenarioInput : ActionResult :=
  { scoreGained := 50
    mergeCount := 1
    fillLevel := 1 / 2
    gameOver := false
    maxFruitLevelAchieved := 3
    previousMaxFruitLevel := 3 }

/-- A result record with a negative score delta: `calculateReward` adds the
score term only under `scoreGained > 0`, the spec formula always. -/
def rewardNegDeltaInput : ActionResult :=
  { scoreGained := -100
    mergeCount := 0
    fillLevel := 0
    gameOver := false
    maxFruitLevelAchieved := 0
    previousMaxFruitLevel := 0 }

/-! ### The agent's replay buffer (`DQNAgent.remember`, optimized variant) -/

/-- `Math.max(...l)` for a non-empty list (the source only spreads
non-empty arrays into `Math.max`). -/
def maxD : List ℚ → ℚ
  | [] => 0
  | x :: xs => xs.foldl max x

/-- The agent state `remember` touches: the PER flag, the capacity, the
experience buffer and the parallel priority list. -/
structure AgentMem (α : Type) where
  usePER : Bool
  memorySize : Nat
  memory : List α
  priorities : List ℚ
deriving DecidableEq

/-- `remember(state, action, reward, nextState, done)` (optimized variant).
With PER: the new experience gets the maximum existing priority (or 1.0 on
an empty list), computed before eviction; buffer and priorities are shifted
together when `memory.length >= memorySize`, then pushed together.
Without PER: push, then shift when `memory.length > memorySize`.
(`this.totalFrames++` feeds the beta annealing schedule, not the buffer.) -/
def remember {α : Type} (e : α) (m : AgentMem α) : AgentMem α :=
  if m.usePER then
    let maxPriority := if 0 < m.priorities.length then maxD m.priorities else 1
    let m1 :=
      if m.memorySize ≤ m.memory.length then
        { m with memory := m.memory.tail, priorities := m.priorities.tail }
      else m
    { m1 with memory := m1.memory ++ [e], priorities := m1.priorities ++ [maxPriority] }
  else
    let m1 := { m with memory := m.memory ++ [e] }
    if m1.memorySize < m1.memory.length then { m1 with memory := m1.memory.tail } else m1

/-- `this.priorities[indices[i]] = tdErrors[i] + this.perEpsilon` in
`replay()`: the priority write-back, which never changes either length. -/
def setPriority {α : Type} (i : Nat) (p : ℚ) (m : AgentMem α) : AgentMem α :=
  { m with priorities := m.priorities.set i p }

/-- An empty capacity-3 prioritized buffer over numbered experiences. -/
def perBuffer3 : AgentMem Nat :=
  { usePER := true, memorySize := 3, memory := [], priorities := [] }

/-- An empty capacity-3 uniform buffer over numbered experiences. -/
def uniformBuffer3 : AgentMem Nat :=
  { usePER := false, memorySize := 3, memory := [], priorities := [] }

/-- A sequence of `remember` calls, oldest first. -/
def rememberAll {α : Type} (es : List α) (m : AgentMem α) : AgentMem α :=
  es.foldl (fun acc e => remember e acc) m

/-! ### The exploration and learning-rate schedules (`DQNAgent`) -/

/-- The hyperparameter fields of the optimized agent that the two decay
schedules read and write. -/
structure AgentSched where
  epsilon : ℚ
  epsilonMin : ℚ
  epsilonDecay : ℚ
  currentLearningRate : ℚ
  learningRateMin : ℚ
  learningRateDecay : ℚ
deriving Repr, DecidableEq

/-- `decayEpsilon()`: `if (this.epsilon > this.epsilonMin) this.epsilon *=
this.epsilonDecay` — called once per completed episode from
`endEpisode()`. -/
def decayEpsilon (s : AgentSched) : AgentSched :=
  if s.epsilon > s.epsilonMin then { s with epsilon := s.epsilon * s.epsilonDecay } else s

/-- `decayLearningRate()`: `if (this.currentLearningRate >
this.learningRateMin) this.currentLearningRate *= this.learningRateDecay` —
called once per training step from `replay()` (the periodic optimizer
recompile reuses the same value). -/
def decayLearningRate (s : AgentSched) : AgentSched :=
  if s.currentLearningRate > s.learningRateMin then
    { s with currentLearningRate := s.currentLearningRate * s.learningRateDecay }
  else s

/-- The default hyperparameters of the optimized agent (rl-controller.js
passes the same values explicitly). -/
def defaultSched : AgentSched :=
  { epsilon := 1
    epsilonMin := 1 / 20
    epsilonDecay := 997 / 1000
    currentLearningRate := 1 / 2000
    learningRateMin := 1 / 100000
    learningRateDecay := 9995 / 10000 }

/-- An agent whose ε sits just above εmin: one more decayed episode lands
strictly below εmin (default decay 0.997). -/
def epsEdgeSched : AgentSched :=
  { defaultSched with epsilon := 501 / 10000 }

/-- An agent whose learning rate sits just above its floor: one more
decayed training step lands strictly below the floor. -/
def lrEdgeSched : AgentSched :=
  { defaultSched with currentLearningRate := 10001 / 1000000000 }

/-! ### The learning-step targets (`DQNAgent.replay`, optimized variant) -/

/-- `argMax(-1)` of tf.js on a Q-value row: the first index attaining the
maximum. -/
def argmaxAux : List ℚ → Nat → ℚ → Nat → Nat
  | [], bestIdx, _, _ => bestIdx
  | x :: xs, bestIdx, bestVal, i =>
    if x > bestVal then argmaxAux xs i x (i + 1) else argmaxAux xs bestIdx bestVal (i + 1)

/-- First index of the maximum of a Q-value row (0 on an empty row). -/
def argmaxIdx : List ℚ → Nat
  | [] => 0
  | x :: xs => argmaxAux xs 0 x 1

/-- One sampled experience of a `replay()` batch together with the three
network evaluations the source gathers for it: `model.predict(state)` (its
row of `currentQValuesArray`), `model.predict(nextState)` (the row argmaxed
into `nextActionsArray`) and `targetModel.predict(nextState)` (its row of
`nextQValuesArray`). -/
structure Sample where
  currentQ : List ℚ
  nextPolicyQ : List ℚ
  nextTargetQ : List ℚ
  action : Nat
  reward : ℚ
  done : Bool
deriving Repr, DecidableEq

/-- The target Q-value of one sample: `rewards[i]` when done; with double
DQN the target network's value at the action the main network selects,
otherwise the target network's maximum. -/
def computeTargetValue (useDoubleDQN : Bool) (gamma : ℚ) (s : Sample) : ℚ :=
  if s.done then s.reward
  else if useDoubleDQN then
    s.reward + gamma * s.nextTargetQ.getD (argmaxIdx s.nextPolicyQ) 0
  else
    s.reward + gamma * maxD s.nextTargetQ

/-- The full per-sample target row: the current Q-values with only the
taken action's slot overwritten (`targetQValues[actions[i]] = target`). -/
def perSampleTargets (useDoubleDQN : Bool) (gamma : ℚ) (s : Sample) : List ℚ :=
  s.currentQ.set s.action (computeTargetValue useDoubleDQN gamma s)

/-- The `targets` array `replay()` fits the policy network toward. -/
def replayTargets (useDoubleDQN : Bool) (gamma : ℚ) (batch : List Sample) :
    List (List ℚ) :=
  batch.map (perSampleTargets useDoubleDQN gamma)

/-- A concrete non-terminal sample for witnesses. -/
def sampleW : Sample :=
  { currentQ := [5, 7, 9]
    nextPolicyQ := [1, 4, 2]
    nextTargetQ := [10, 20, 30]
    action := 2
    reward := 3
    done := false }

end FruitMergeRL

/-! ## Scheduler lemmas -/

namespace FruitMergeRL

set_option maxRecDepth 4000

theorem runSteps_eq (k : Nat) (s : ApiState) : runSteps k s = onSimulationStep^[k] s := rfl

theorem stepDropPhase_zero (s : ApiState) (h : s.dropCooldownCounter = 0) :
    stepDropPhase s = s := by
  unfold stepDropPhase
  rw [h]
  simp

theorem stepResetPhase_zero (s : ApiState) (h : s.resetCooldownCounter = 0) :
    stepResetPhase s = s := by
  unfold stepResetPhase
  rw [h]
  simp

theorem stepDropPhase_noCb (s : ApiState) (h : s.actionResolveCallback = none) :
    (stepDropPhase s).actionResolveCallback = none ∧
    (stepDropPhase s).actionQueue = s.actionQueue ∧
    (stepDropPhase s).resolvedActions = s.resolvedActions := by
  unfold stepDropPhase
  split
  · dsimp only
    simp [h]
  · exact ⟨h, rfl, rfl⟩

theorem stepResetPhase_frame (s : ApiState) :
    (stepResetPhase s).actionResolveCallback = s.actionResolveCallback ∧
    (stepResetPhase s).actionQueue = s.actionQueue ∧
    (stepResetPhase s).resolvedActions = s.resolvedActions ∧
    (stepResetPhase s).dropCooldownCounter = s.dropCooldownCounter ∧
    (stepResetPhase s).isExecutingAction = s.isExecutingAction := by
  unfold stepResetPhase
  split
  · dsimp only
    split
    · exact ⟨rfl, rfl, rfl, rfl, rfl⟩
    · exact ⟨rfl, rfl, rfl, rfl, rfl⟩
  · exact ⟨rfl, rfl, rfl, rfl, rfl⟩

theorem onSimulationStep_eq (s : ApiState) :
    onSimulationStep s =
      if ((s.simulationStep + 1 : Nat) : Int) = s.lastProcessedStep
      then { s with simulationStep := s.simulationStep + 1 }
      else stepResetPhase (stepDropPhase (bumpStep s)) := rfl

theorem onSimulationStep_idle (s : ApiState) (h1 : s.dropCooldownCounter = 0)
    (h3 : s.resetCooldownCounter = 0) :
    (onSimulationStep s).dropCooldownCounter = 0 ∧
    (onSimulationStep s).resetCooldownCounter = 0 ∧
    (onSimulationStep s).actionResolveCallback = s.actionResolveCallback ∧
    (onSimulationStep s).actionQueue = s.actionQueue ∧
    (onSimulationStep s).resolvedActions = s.resolvedActions ∧
    (onSimulationStep s).resetResolvedCount = s.resetResolvedCount := by
  rw [onSimulationStep_eq]
  split
  · exact ⟨h1, h3, rfl, rfl, rfl, rfl⟩
  · rw [stepDropPhase_zero (bumpStep s) h1, stepResetPhase_zero (bumpStep s) h3]
    exact ⟨h1, h3, rfl, rfl, rfl, rfl⟩

theorem iterate_idle (k : Nat) (s : ApiState) (h1 : s.dropCooldownCounter = 0)
    (h3 : s.resetCooldownCounter = 0) :
    (onSimulationStep^[k] s).dropCooldownCounter = 0 ∧
    (onSimulationStep^[k] s).resetCooldownCounter = 0 ∧
    (onSimulationStep^[k] s).actionResolveCallback = s.actionResolveCallback ∧
    (onSimulationStep^[k] s).actionQueue = s.actionQueue ∧
    (onSimulationStep^[k] s).resolvedActions = s.resolvedActions ∧
    (onSimulationStep^[k] s).resetResolvedCount = s.resetResolvedCount := by
  induction k with
  | zero => exact ⟨h1, h3, rfl, rfl, rfl, rfl⟩
  | succ n ih =>
    rw [Function.iterate_succ_apply']
    obtain ⟨i1, i2, i3, i4, i5, i6⟩ := ih
    obtain ⟨g1, g2, g3, g4, g5, g6⟩ := onSimulationStep_idle _ i1 i2
    exact ⟨g1, g2, g3.trans i3, g4.trans i4, g5.trans i5, g6.trans i6⟩

theorem onSimulationStep_noPending (s : ApiState) (hcb : s.actionResolveCallback = none)
    (hq : s.actionQueue = []) :
    (onSimulationStep s).actionResolveCallback = none ∧
    (onSimulationStep s).actionQueue = [] ∧
    (onSimulationStep s).resolvedActions = s.resolvedActions := by
  rw [onSimulationStep_eq]
  split
  · exact ⟨hcb, hq, rfl⟩
  · obtain ⟨d1, d2, d3⟩ := stepDropPhase_noCb (bumpStep s) hcb
    obtain ⟨r1, r2, r3, _, _⟩ := stepResetPhase_frame (stepDropPhase (bumpStep s))
    refine ⟨r1.trans d1, ?_, ?_⟩
    · rw [r2, d2]; exact hq
    · rw [r3, d3]; rfl

theorem iterate_noPending (k : Nat) (s : ApiState) (hcb : s.actionResolveCallback = none)
    (hq : s.actionQueue = []) :
    (onSimulationStep^[k] s).actionResolveCallback = none ∧
    (onSimulationStep^[k] s).actionQueue = [] ∧
    (onSimulationStep^[k] s).resolvedActions = s.resolvedActions := by
  induction k with
  | zero => exact ⟨hcb, hq, rfl⟩
  | succ n ih =>
    rw [Function.iterate_succ_apply']
    obtain ⟨i1, i2, i3⟩ := ih
    obtain ⟨g1, g2, g3⟩ := onSimulationStep_noPending _ i1 i2
    exact ⟨g1, g2, g3.trans i3⟩

theorem resetGameRun_fields (s : ApiState) :
    (resetGameRun s).actionQueue = [] ∧
    (resetGameRun s).actionResolveCallback = none ∧
    (resetGameRun s).resolvedActions = s.resolvedActions := by
  unfold resetGameRun
  dsimp only
  split
  · exact ⟨rfl, rfl, rfl⟩
  · exact ⟨rfl, rfl, rfl⟩

/-- Claim C1: with the drop cooldown armed to `DROP_COOLDOWN_STEPS = 25` in
accelerated mode, the first 24 step notifications leave the action pending,
the 25th resolves it exactly once, and every further notification —
including duplicate deliveries from a second step source, which reach the
same `onSimulationStep` — causes no further resolution and leaves the
cooldown counter at zero. -/
theorem cooldown_exactly_once_25_steps :
    DROP_COOLDOWN_STEPS = 25 ∧
    (runSteps 24 c1Start).resolvedActions = [] ∧
    (runSteps 24 c1Start).actionResolveCallback = some 0 ∧
    (runSteps 25 c1Start).resolvedActions = [0] ∧
    (∀ k : Nat, (runSteps (25 + k) c1Start).resolvedActions = [0] ∧
      (runSteps (25 + k) c1Start).dropCooldownCounter = 0) := by
  refine ⟨rfl, by decide, by decide, by decide, ?_⟩
  intro k
  have h2 : runSteps (25 + k) c1Start = onSimulationStep^[k] (runSteps 25 c1Start) := by
    rw [runSteps_eq, runSteps_eq, Nat.add_comm, Function.iterate_add_apply]
  have hdrop : (runSteps 25 c1Start).dropCooldownCounter = 0 := by decide
  have hreset : (runSteps 25 c1Start).resetCooldownCounter = 0 := by decide
  have hres : (runSteps 25 c1Start).resolvedActions = [0] := by decide
  obtain ⟨g1, _, _, _, g5, _⟩ := iterate_idle k _ hdrop hreset
  rw [h2]
  exact ⟨g5.trans hres, g1⟩

/-- Claim C6: with the three actions 10, 20, 30 enqueued in that order (the
second and third while the first is in flight), the log of resolved actions
is at every point an initial segment of [10, 20, 30], all three are
resolved after 75 steps, and at every point the queued, in-flight and
resolved actions account for exactly the three enqueued ones with at most
one in flight. -/
theorem actions_resolve_in_enqueue_order :
    (∀ k : Nat, (runSteps k c6Start).resolvedActions <+: [10, 20, 30]) ∧
    (runSteps 75 c6Start).resolvedActions = [10, 20, 30] ∧
    (∀ k : Nat,
      (runSteps k c6Start).actionQueue.length
        + (if (runSteps k c6Start).actionResolveCallback.isSome then 1 else 0)
        + (runSteps k c6Start).resolvedActions.length = 3) := by
  have hb : ∀ k, k < 76 → ((runSteps k c6Start).resolvedActions <+: [10, 20, 30]) ∧
      (runSteps k c6Start).actionQueue.length
        + (if (runSteps k c6Start).actionResolveCallback.isSome then 1 else 0)
        + (runSteps k c6Start).resolvedActions.length = 3 := by decide
  have h75d : (runSteps 75 c6Start).dropCooldownCounter = 0 := by decide
  have h75r : (runSteps 75 c6Start).resetCooldownCounter = 0 := by decide
  have h75res : (runSteps 75 c6Start).resolvedActions = [10, 20, 30] := by decide
  have h75q : (runSteps 75 c6Start).actionQueue = [] := by decide
  have h75cb : (runSteps 75 c6Start).actionResolveCallback = none := by decide
  have tail : ∀ k, 75 ≤ k → (runSteps k c6Start).resolvedActions = [10, 20, 30] ∧
      (runSteps k c6Start).actionQueue = [] ∧
      (runSteps k c6Start).actionResolveCallback = none := by
    intro k hk
    have he : runSteps k c6Start = onSimulationStep^[k - 75] (runSteps 75 c6Start) := by
      rw [runSteps_eq, runSteps_eq, ← Function.iterate_add_apply, Nat.sub_add_cancel hk]
    rw [he]
    obtain ⟨_, _, g3, g4, g5, _⟩ := iterate_idle (k - 75) _ h75d h75r
    exact ⟨g5.trans h75res, g4.trans h75q, g3.trans h75cb⟩
  refine ⟨?_, h75res, ?_⟩
  · intro k
    rcases lt_or_ge k 76 with h | h
    · exact (hb k h).1
    · rw [(tail k (by omega)).1]
  · intro k
    rcases lt_or_ge k 76 with h | h
    · exact (hb k h).2
    · obtain ⟨t1, t2, t3⟩ := tail k (by omega)
      rw [t1, t2, t3]
      simp

/-- Claim C7 counterexample: the action with id 0 is in flight when
`resetGame()` arrives; `resetGame()` clears the queue and the stored
resolve callback, so the action is never resolved — 100 further steps
resolve the reset's own promise (count 1) but log no action resolution. -/
theorem reset_drops_inflight_counterexample :
    c7InFlight.actionResolveCallback = some 0 ∧
    c7InFlight.isExecutingAction = true ∧
    c7InFlight.resolvedActions = [] ∧
    c7AfterReset.actionResolveCallback = none ∧
    c7AfterReset.actionQueue = [] ∧
    c7AfterReset.resolvedActions = [] ∧
    (runSteps 100 c7AfterReset).resolvedActions = [] ∧
    (runSteps 100 c7AfterReset).resetResolvedCount = 1 := by
  refine ⟨by decide, by decide, by decide, by decide, by decide, by decide, by decide, by decide⟩

/-- Claim C7 amended: `resetGame()` empties the queue and discards the
in-flight action's resolve callback; from any state, no action resolution
is ever logged by any number of later step notifications beyond those
already logged before the reset — an in-flight action is silently dropped,
not resolved. -/
theorem reset_discards_inflight_action (s : ApiState) (k : Nat) :
    (resetGameRun s).actionQueue = [] ∧
    (resetGameRun s).actionResolveCallback = none ∧
    (runSteps k (resetGameRun s)).resolvedActions = s.resolvedActions := by
  obtain ⟨q, cb, res⟩ := resetGameRun_fields s
  obtain ⟨_, _, g3⟩ := iterate_noPending k _ cb q
  rw [runSteps_eq]
  exact ⟨q, cb, g3.trans res⟩

/-- Claim C9 counterexample: on the unbound scheduler (`new GameAPI()`,
before `init`), `isGameOver()` returns the value `false` and
`setFastForwardMode(true)` records the flag and returns — neither fails
with the NotInitialized error. -/
theorem isGameOver_no_error_counterexample :
    apiNew.gameInstance = none ∧
    isGameOverOp apiNew = Except.ok false ∧
    setFastForwardModeOp true apiNew = Except.ok (setFF true apiNew) := by
  refine ⟨rfl, rfl, rfl⟩

/-- Claim C9 amended: before the scheduler is bound to a live driver,
`executeAction`, `resetGame` (and `getGameState`, which shares the same
guard) fail with the NotInitialized error, while `isGameOver` returns
`false` and `setFastForwardMode` records the flag without failing. -/
theorem uninitialized_ops_corrected (s : ApiState) (i : Nat) (p : ℚ) (e : Bool)
    (h : s.gameInstance = none) :
    executeActionOp i p s = Except.error ApiError.notInitialized ∧
    resetGameOp s = Except.error ApiError.notInitialized ∧
    isGameOverOp s = Except.ok false ∧
    setFastForwardModeOp e s = Except.ok (setFF e s) := by
  unfold executeActionOp resetGameOp isGameOverOp setFastForwardModeOp
  rw [h]
  exact ⟨rfl, rfl, rfl, rfl⟩

theorem uninitialized_ops_corrected_witness :
    apiNew.gameInstance = none ∧
    (executeActionOp 7 (1 / 2) apiNew = Except.error ApiError.notInitialized ∧
     resetGameOp apiNew = Except.error ApiError.notInitialized ∧
     isGameOverOp apiNew = Except.ok false ∧
     setFastForwardModeOp false apiNew = Except.ok (setFF false apiNew)) :=
  ⟨rfl, uninitialized_ops_corrected apiNew 7 (1 / 2) false rfl⟩

end FruitMergeRL
namespace FruitMergeRL

/-- Claim C2 counterexample: on a result with a negative score delta the
implemented reward (`calculateReward`, which adds the score term only when
`scoreGained > 0`) differs from the spec's unconditional formula. -/
theorem reward_formula_counterexample :
    calculateReward rewardNegDeltaInput = -(1 / 10) ∧
    specRewardFormula rewardNegDeltaInput = -(11 / 10) ∧
    calculateReward rewardNegDeltaInput ≠ specRewardFormula rewardNegDeltaInput := by
  refine ⟨?_, ?_, ?_⟩
  · norm_num [calculateReward, rewardNegDeltaInput]
  · norm_num [specRewardFormula, rewardNegDeltaInput]
  · norm_num [calculateReward, specRewardFormula, rewardNegDeltaInput]

/-- Claim C2 amended: for every action result with a non-negative score
delta and merge count (the scheduler produces merge counts through a max
with 0), the computed reward equals the spec formula
`-0.1 + scoreDelta/100 + mergeCount*2 - max(0, fillLevel-0.8)*10 -
100*terminal + 10*max(0, newBest - prevBest)`; and every terminal result's
reward is exactly 100 less than the same result without the terminal flag,
i.e. it includes the fixed -100 term. -/
theorem reward_formula_corrected (r : ActionResult)
    (hs : 0 ≤ r.scoreGained) (hm : 0 ≤ r.mergeCount) :
    calculateReward r = specRewardFormula r ∧
    (r.gameOver = true →
      calculateReward r = calculateReward { r with gameOver := false } - 100) := by
  constructor
  · unfold calculateReward specRewardFormula
    have hmax1 : max (0 : ℚ) (r.fillLevel - 4 / 5) =
        if r.fillLevel > 4 / 5 then r.fillLevel - 4 / 5 else 0 := by
      split
      · exact max_eq_right (by linarith)
      · exact max_eq_left (by linarith)
    have hmax2 : max (0 : ℚ) (r.maxFruitLevelAchieved - r.previousMaxFruitLevel) =
        if r.maxFruitLevelAchieved > r.previousMaxFruitLevel then
          r.maxFruitLevelAchieved - r.previousMaxFruitLevel
        else 0 := by
      split
      · exact max_eq_right (by linarith)
      · exact max_eq_left (by linarith)
    rw [hmax1, hmax2]
    split_ifs <;> linarith
  · intro hg
    unfold calculateReward
    dsimp only
    rw [hg]
    simp only [Bool.false_eq_true, if_true, if_false]
    split_ifs <;> ring

theorem reward_formula_corrected_witness :
    (0 : ℚ) ≤ rewardScenarioInput.scoreGained ∧
    (0 : ℚ) ≤ rewardScenarioInput.mergeCount ∧
    calculateReward rewardScenarioInput = specRewardFormula rewardScenarioInput ∧
    calculateReward rewardScenarioInput = 12 / 5 :=
  ⟨by norm_num [rewardScenarioInput], by norm_num [rewardScenarioInput],
   (reward_formula_corrected rewardScenarioInput (by norm_num [rewardScenarioInput])
     (by norm_num [rewardScenarioInput])).1,
   by norm_num [calculateReward, rewardScenarioInput]⟩

end FruitMergeRL
namespace FruitMergeRL

theorem decayEpsilon_apply (t : AgentSched) :
    decayEpsilon t =
      if t.epsilon > t.epsilonMin then { t with epsilon := t.epsilon * t.epsilonDecay }
      else t := rfl

theorem decayLearningRate_apply (t : AgentSched) :
    decayLearningRate t =
      if t.currentLearningRate > t.learningRateMin then
        { t with currentLearningRate := t.currentLearningRate * t.learningRateDecay }
      else t := rfl

theorem decayEpsilon_le (t : AgentSched) (h0 : 0 ≤ t.epsilon) (h1 : t.epsilonDecay ≤ 1) :
    (decayEpsilon t).epsilon ≤ t.epsilon := by
  unfold decayEpsilon
  split
  · exact mul_le_of_le_one_right h0 h1
  · exact le_refl _

theorem decayEpsilon_iter_inv (s : AgentSched) (hd0 : 0 ≤ s.epsilonDecay)
    (he0 : 0 ≤ s.epsilon) (he1 : s.epsilonMin * s.epsilonDecay ≤ s.epsilon) (k : Nat) :
    (decayEpsilon^[k] s).epsilonMin = s.epsilonMin ∧
    (decayEpsilon^[k] s).epsilonDecay = s.epsilonDecay ∧
    0 ≤ (decayEpsilon^[k] s).epsilon ∧
    s.epsilonMin * s.epsilonDecay ≤ (decayEpsilon^[k] s).epsilon := by
  induction k with
  | zero => exact ⟨rfl, rfl, he0, he1⟩
  | succ n ih =>
    obtain ⟨i1, i2, i3, i4⟩ := ih
    rw [Function.iterate_succ_apply', decayEpsilon_apply]
    split
    · next h =>
      refine ⟨i1, i2, mul_nonneg i3 (by rw [i2]; exact hd0), ?_⟩
      calc s.epsilonMin * s.epsilonDecay
          = (decayEpsilon^[n] s).epsilonMin * (decayEpsilon^[n] s).epsilonDecay := by
            rw [i1, i2]
        _ ≤ (decayEpsilon^[n] s).epsilon * (decayEpsilon^[n] s).epsilonDecay :=
            mul_le_mul_of_nonneg_right (le_of_lt h) (by rw [i2]; exact hd0)
    · exact ⟨i1, i2, i3, i4⟩

theorem decayLearningRate_le (t : AgentSched) (h0 : 0 ≤ t.currentLearningRate)
    (h1 : t.learningRateDecay ≤ 1) :
    (decayLearningRate t).currentLearningRate ≤ t.currentLearningRate := by
  unfold decayLearningRate
  split
  · exact mul_le_of_le_one_right h0 h1
  · exact le_refl _

theorem decayLearningRate_iter_inv (s : AgentSched) (hd0 : 0 ≤ s.learningRateDecay)
    (he0 : 0 ≤ s.currentLearningRate)
    (he1 : s.learningRateMin * s.learningRateDecay ≤ s.currentLearningRate) (k : Nat) :
    (decayLearningRate^[k] s).learningRateMin = s.learningRateMin ∧
    (decayLearningRate^[k] s).learningRateDecay = s.learningRateDecay ∧
    0 ≤ (decayLearningRate^[k] s).currentLearningRate ∧
    s.learningRateMin * s.learningRateDecay ≤
      (decayLearningRate^[k] s).currentLearningRate := by
  induction k with
  | zero => exact ⟨rfl, rfl, he0, he1⟩
  | succ n ih =>
    obtain ⟨i1, i2, i3, i4⟩ := ih
    rw [Function.iterate_succ_apply', decayLearningRate_apply]
    split
    · next h =>
      refine ⟨i1, i2, mul_nonneg i3 (by rw [i2]; exact hd0), ?_⟩
      calc s.learningRateMin * s.learningRateDecay
          = (decayLearningRate^[n] s).learningRateMin
              * (decayLearningRate^[n] s).learningRateDecay := by rw [i1, i2]
        _ ≤ (decayLearningRate^[n] s).currentLearningRate
              * (decayLearningRate^[n] s).learningRateDecay :=
            mul_le_mul_of_nonneg_right (le_of_lt h) (by rw [i2]; exact hd0)
    · exact ⟨i1, i2, i3, i4⟩

/-- Claim C4 counterexample: `decayEpsilon` multiplies without flooring, so
from ε = 0.0501 (> εmin = 0.05) one decayed episode lands at
0.0499497 < εmin; likewise the learning rate decays below its configured
floor from just above it. -/
theorem epsilon_lr_floor_counterexample :
    epsEdgeSched.epsilonMin < epsEdgeSched.epsilon ∧
    (decayEpsilon epsEdgeSched).epsilon < epsEdgeSched.epsilonMin ∧
    lrEdgeSched.learningRateMin < lrEdgeSched.currentLearningRate ∧
    (decayLearningRate lrEdgeSched).currentLearningRate < lrEdgeSched.learningRateMin := by
  have h1 : epsEdgeSched.epsilon > epsEdgeSched.epsilonMin := by
    norm_num [epsEdgeSched, defaultSched]
  have h2 : lrEdgeSched.currentLearningRate > lrEdgeSched.learningRateMin := by
    norm_num [lrEdgeSched, defaultSched]
  refine ⟨h1, ?_, h2, ?_⟩
  · unfold decayEpsilon
    rw [if_pos h1]
    norm_num [epsEdgeSched, defaultSched]
  · unfold decayLearningRate
    rw [if_pos h2]
    norm_num [lrEdgeSched, defaultSched]

/-- Claim C4 amended: for decay factors in [0,1], ε is non-increasing
across episodes and never falls below εmin·decay (not εmin: it can
undershoot the floor once, by at most the decay factor, after which it is
frozen); the learning rate likewise is non-increasing across training
steps and never falls below its floor times its decay factor. -/
theorem epsilon_lr_schedule_corrected (s : AgentSched) (k : Nat)
    (hd0 : 0 ≤ s.epsilonDecay) (hd1 : s.epsilonDecay ≤ 1)
    (he0 : 0 ≤ s.epsilon) (he1 : s.epsilonMin * s.epsilonDecay ≤ s.epsilon)
    (hl0 : 0 ≤ s.learningRateDecay) (hl1 : s.learningRateDecay ≤ 1)
    (hr0 : 0 ≤ s.currentLearningRate)
    (hr1 : s.learningRateMin * s.learningRateDecay ≤ s.currentLearningRate) :
    ((decayEpsilon^[k + 1] s).epsilon ≤ (decayEpsilon^[k] s).epsilon ∧
      s.epsilonMin * s.epsilonDecay ≤ (decayEpsilon^[k] s).epsilon) ∧
    ((decayLearningRate^[k + 1] s).currentLearningRate ≤
        (decayLearningRate^[k] s).currentLearningRate ∧
      s.learningRateMin * s.learningRateDecay ≤
        (decayLearningRate^[k] s).currentLearningRate) := by
  obtain ⟨e1, e2, e3, e4⟩ := decayEpsilon_iter_inv s hd0 he0 he1 k
  obtain ⟨l1, l2, l3, l4⟩ := decayLearningRate_iter_inv s hl0 hr0 hr1 k
  refine ⟨⟨?_, e4⟩, ⟨?_, l4⟩⟩
  · rw [Function.iterate_succ_apply']
    exact decayEpsilon_le _ e3 (by rw [e2]; exact hd1)
  · rw [Function.iterate_succ_apply']
    exact decayLearningRate_le _ l3 (by rw [l2]; exact hl1)

theorem epsilon_lr_schedule_corrected_witness :
    ((decayEpsilon^[4] defaultSched).epsilon ≤ (decayEpsilon^[3] defaultSched).epsilon ∧
      defaultSched.epsilonMin * defaultSched.epsilonDecay ≤
        (decayEpsilon^[3] defaultSched).epsilon) ∧
    ((decayLearningRate^[4] defaultSched).currentLearningRate ≤
        (decayLearningRate^[3] defaultSched).currentLearningRate ∧
      defaultSched.learningRateMin * defaultSched.learningRateDecay ≤
        (decayLearningRate^[3] defaultSched).currentLearningRate) :=
  epsilon_lr_schedule_corrected defaultSched 3
    (by norm_num [defaultSched]) (by norm_num [defaultSched])
    (by norm_num [defaultSched]) (by norm_num [defaultSched])
    (by norm_num [defaultSched]) (by norm_num [defaultSched])
    (by norm_num [defaultSched]) (by norm_num [defaultSched])

end FruitMergeRL
namespace FruitMergeRL

theorem remember_sched_fields {α : Type} (e : α) (m : AgentMem α) :
    (remember e m).memorySize = m.memorySize ∧ (remember e m).usePER = m.usePER := by
  unfold remember
  split
  · dsimp only
    split <;> exact ⟨rfl, rfl⟩
  · dsimp only
    split <;> exact ⟨rfl, rfl⟩

theorem remember_length_le {α : Type} (e : α) (m : AgentMem α)
    (h0 : 0 < m.memorySize) (h : m.memory.length ≤ m.memorySize) :
    (remember e m).memory.length ≤ m.memorySize := by
  unfold remember
  split
  · dsimp only
    split
    · next hfull =>
      simp only [List.length_append, List.length_cons, List.length_nil, List.length_tail]
      omega
    · next hnot =>
      simp only [List.length_append, List.length_cons, List.length_nil]
      omega
  · dsimp only
    split
    · next hover =>
      simp only [List.length_tail, List.length_append, List.length_cons, List.length_nil] at *
      omega
    · next hnot =>
      simp only [List.length_append, List.length_cons, List.length_nil] at *
      omega

theorem remember_lockstep {α : Type} (e : α) (m : AgentMem α)
    (hper : m.usePER = true) (h : m.priorities.length = m.memory.length) :
    (remember e m).priorities.length = (remember e m).memory.length := by
  unfold remember
  rw [hper]
  simp only [if_true]
  split
  · simp only [List.length_append, List.length_cons, List.length_nil, List.length_tail]
    omega
  · simp only [List.length_append, List.length_cons, List.length_nil]
    omega

theorem remember_evicts_oldest {α : Type} (e : α) (m : AgentMem α)
    (h0 : 0 < m.memorySize) (h : m.memory.length = m.memorySize) :
    (remember e m).memory = m.memory.tail ++ [e] := by
  unfold remember
  split
  · dsimp only
    rw [if_pos (by omega)]
  · dsimp only
    rw [if_pos (by simp; omega)]
    cases hm : m.memory with
    | nil => rw [hm] at h; simp at h; omega
    | cons a as => simp

theorem rememberAll_invariant {α : Type} (es : List α) (m : AgentMem α)
    (h0 : 0 < m.memorySize) (h : m.memory.length ≤ m.memorySize)
    (hp : m.usePER = true → m.priorities.length = m.memory.length) :
    (rememberAll es m).memory.length ≤ m.memorySize ∧
    (m.usePER = true → (rememberAll es m).priorities.length =
      (rememberAll es m).memory.length) := by
  induction es generalizing m with
  | nil => exact ⟨h, hp⟩
  | cons e es ih =>
    obtain ⟨f1, f2⟩ := remember_sched_fields e m
    have hlen := remember_length_le e m h0 h
    have hlock : (remember e m).usePER = true →
        (remember e m).priorities.length = (remember e m).memory.length := by
      intro hper
      exact remember_lockstep e m (f2 ▸ hper) (hp (f2 ▸ hper))
    have := ih (remember e m) (f1 ▸ h0) (f1 ▸ hlen) hlock
    rw [rememberAll, List.foldl_cons]
    rw [rememberAll] at this
    refine ⟨by rw [← f1]; exact this.1, fun hper => this.2 (f2 ▸ hper)⟩

/-- Claim C3: after every sequence of `remember` calls the buffer's length
never exceeds its capacity and, with prioritized replay on, the priority
list always has the same length as the buffer; a `remember` on a full
buffer evicts the oldest entry first; inserting e1..e4 into a capacity-3
buffer leaves exactly [e2, e3, e4] in insertion order (in both the PER and
the uniform branch); the priority write-back of `replay()` changes no
lengths. -/
theorem replay_buffer_capacity_fifo :
    (∀ (α : Type) (m : AgentMem α) (es : List α),
      0 < m.memorySize → m.memory.length ≤ m.memorySize →
      (m.usePER = true → m.priorities.length = m.memory.length) →
      (rememberAll es m).memory.length ≤ m.memorySize ∧
      (m.usePER = true → (rememberAll es m).priorities.length =
        (rememberAll es m).memory.length)) ∧
    (∀ (α : Type) (m : AgentMem α) (e : α),
      0 < m.memorySize → m.memory.length = m.memorySize →
      (remember e m).memory = m.memory.tail ++ [e]) ∧
    (rememberAll [1, 2, 3, 4] perBuffer3).memory = [2, 3, 4] ∧
    (rememberAll [1, 2, 3, 4] uniformBuffer3).memory = [2, 3, 4] ∧
    (rememberAll [1, 2, 3, 4] perBuffer3).priorities.length = 3 ∧
    (∀ (α : Type) (m : AgentMem α) (i : Nat) (p : ℚ),
      (setPriority i p m).priorities.length = m.priorities.length ∧
      (setPriority i p m).memory = m.memory) :=
  ⟨fun _ m es h0 h hp => rememberAll_invariant es m h0 h hp,
   fun _ m e h0 h => remember_evicts_oldest e m h0 h,
   by decide, by decide, by decide,
   fun _ m i p => ⟨by simp [setPriority], rfl⟩⟩

end FruitMergeRL
namespace FruitMergeRL

/-- Claim C5: with double DQN on, the per-sample training target equals the
reward when the experience is terminal and otherwise
`reward + gamma * targetNet(next)[argmax policyNet(next)]`; every other
slot of the target row keeps the policy network's current Q-value; the
batch's targets are exactly the per-sample rows in order. -/
theorem double_dqn_target_formula (gamma : ℚ) (s : Sample)
    (ha : s.action < s.currentQ.length) :
    (perSampleTargets true gamma s)[s.action]? =
      some (if s.done then s.reward
            else s.reward + gamma * s.nextTargetQ.getD (argmaxIdx s.nextPolicyQ) 0) ∧
    (∀ j, j ≠ s.action → (perSampleTargets true gamma s)[j]? = s.currentQ[j]?) ∧
    (∀ batch : List Sample,
      replayTargets true gamma batch = batch.map (perSampleTargets true gamma)) := by
  refine ⟨?_, ?_, fun _ => rfl⟩
  · unfold perSampleTargets computeTargetValue
    rw [List.getElem?_set_eq_of_lt _ ha]
    split <;> simp
  · intro j hj
    unfold perSampleTargets
    exact List.getElem?_set_ne (fun hne => hj hne.symm)

theorem double_dqn_target_formula_witness :
    sampleW.action < sampleW.currentQ.length ∧
    ((perSampleTargets true (99 / 100) sampleW)[sampleW.action]? =
      some (if sampleW.done then sampleW.reward
            else sampleW.reward +
              (99 / 100) * sampleW.nextTargetQ.getD (argmaxIdx sampleW.nextPolicyQ) 0) ∧
     (∀ j, j ≠ sampleW.action →
       (perSampleTargets true (99 / 100) sampleW)[j]? = sampleW.currentQ[j]?) ∧
     (∀ batch : List Sample,
       replayTargets true (99 / 100) batch = batch.map (perSampleTargets true (99 / 100)))) :=
  ⟨by decide, double_dqn_target_formula (99 / 100) sampleW (by decide)⟩

end FruitMergeRL
namespace FruitMergeRL

/-- Claim C8 counterexample: on a game with eleven level-0 fruits — a
reachable board — component 6 of the state vector (the level-0 count
divided by 10, unclamped) equals 1.1 > 1, so not every component lies in
[0,1]. -/
theorem state_vector_component_exceeds_one :
    (envGetState (getGameState elevenFruitGame)).length = 20 ∧
    (envGetState (getGameState elevenFruitGame)).getD 6 0 = 11 / 10 ∧
    1 < (envGetState (getGameState elevenFruitGame)).getD 6 0 := by
  have hc : (getGameState elevenFruitGame).fruitLevelCounts.getD 0 0 = 11 := by decide
  have hs : (envGetState (getGameState elevenFruitGame)).getD 6 0
      = (((getGameState elevenFruitGame).fruitLevelCounts.getD 0 0 : Nat) : ℚ) / 10 := rfl
  have hl : (envGetState (getGameState elevenFruitGame)).length = 20 := by decide
  refine ⟨hl, ?_, ?_⟩
  · rw [hs, hc]; norm_num
  · rw [hs, hc]; norm_num

/-- Claim C8 amended: only slots 0, 3 and 17 are clamped; all 20 components
lie in [0,1] only under the nominal ranges — score and elapsed time
non-negative, piece levels at most 9, per-level counts at most 10,
normalized positions and fill level already inside [0,1] (the fill level
is clamped upstream by `getGameState`). -/
theorem state_vector_unit_interval_corrected (gs : GameState)
    (h0 : 0 ≤ gs.score) (h1 : gs.currentFruitLevel ≤ 9) (h2 : gs.nextFruitLevel ≤ 9)
    (h4 : 0 ≤ gs.avgFruitY) (h5 : gs.avgFruitY ≤ 1)
    (h6 : 0 ≤ gs.maxFruitY) (h7 : gs.maxFruitY ≤ 1)
    (h8 : ∀ c ∈ gs.fruitLevelCounts, c ≤ 10)
    (h9 : 0 ≤ gs.fillLevel) (h10 : gs.fillLevel ≤ 1)
    (h11 : 0 ≤ gs.timeSinceLastDrop) :
    ∀ x ∈ envGetState gs, 0 ≤ x ∧ x ≤ 1 := by
  have hgd : ∀ i : Nat, gs.fruitLevelCounts.getD i 0 ≤ 10 := by
    intro i
    rcases Nat.lt_or_ge i gs.fruitLevelCounts.length with hlt | hge
    · refine h8 _ ?_
      rw [List.getD_eq_getElem _ _ hlt]
      exact List.getElem_mem hlt
    · rw [List.getD_eq_default _ _ hge]
      omega
  intro x hx
  simp only [envGetState, List.mem_append, List.mem_cons, List.mem_singleton,
    List.mem_map, List.mem_range, List.not_mem_nil, or_false] at hx
  rcases hx with ((h | h | h | h | h | h) | ⟨i, _, h⟩) | (h | h | h | h)
  · subst h
    exact ⟨le_min (div_nonneg h0 (by norm_num)) zero_le_one, min_le_right _ _⟩
  · subst h
    constructor
    · positivity
    · rw [div_le_one (by norm_num)]
      exact_mod_cast h1
  · subst h
    constructor
    · positivity
    · rw [div_le_one (by norm_num)]
      exact_mod_cast h2
  · subst h
    exact ⟨le_min (div_nonneg (Nat.cast_nonneg _) (by norm_num)) zero_le_one,
      min_le_right _ _⟩
  · subst h
    exact ⟨h4, h5⟩
  · subst h
    exact ⟨h6, h7⟩
  · subst h
    constructor
    · positivity
    · rw [div_le_one (by norm_num)]
      exact_mod_cast hgd i
  · subst h
    exact ⟨h9, h10⟩
  · subst h
    exact ⟨le_min (div_nonneg h11 (by norm_num)) zero_le_one, min_le_right _ _⟩
  · subst h
    split <;> norm_num
  · subst h
    split <;> norm_num

theorem state_vector_unit_interval_corrected_witness :
    0 ≤ (envGetState nominalGameState).getD 4 0 ∧ (envGetState nominalGameState).getD 4 0 ≤ 1 :=
  state_vector_unit_interval_corrected nominalGameState
    (by norm_num [nominalGameState]) (by norm_num [nominalGameState])
    (by norm_num [nominalGameState]) (by norm_num [nominalGameState])
    (by norm_num [nominalGameState]) (by norm_num [nominalGameState])
    (by norm_num [nominalGameState]) (by decide)
    (by norm_num [nominalGameState]) (by norm_num [nominalGameState])
    (by norm_num [nominalGameState])
    ((envGetState nominalGameState).getD 4 0)
    (by rw [List.getD_eq_getElem _ _ (by decide)]; exact List.getElem_mem (by decide))

end FruitMergeRL
